import Mathlib

/-!
Verification development for the mikros service framework core:
the feature/service plugin lifecycle and dependency-injection engine.

Each definition is a shallow embedding of the corresponding Go function,
translated structurally from the repository sources.  Machine integers are
modelled as Int/Nat (no overflow is reachable in the embedded fragments),
Go maps that are only ever inserted into when the key is absent are modelled
as association lists in insertion order, and fallible Go code returns
Option/Except.  A Go panic is modelled as the value none of an outer Option.
-/

namespace Mikros

/-! ## Error taxonomy (internal/components/errors/kind.go) -/

/-- Error kinds of the framework taxonomy, from kind.go. -/
inductive Kind
  | validation
  | internal
  | notFound
  | precondition
  | permission
  | rpc
  | custom
deriving DecidableEq, Repr

/-- String representation of a Kind, from the Kind constants in kind.go. -/
def Kind.str : Kind → String
  | .validation => "ValidationError"
  | .internal => "InternalError"
  | .notFound => "NotFoundError"
  | .precondition => "ConditionError"
  | .permission => "PermissionError"
  | .rpc => "RPCError"
  | .custom => "CustomError"

/-- Log severities of the structured logger (internal/components/logger/logger.go):
Debug, Info, Warn, Error, Fatal methods.  A Fatal call terminates the process
(os.Exit) after logging. -/
inductive Severity
  | debug
  | info
  | warn
  | error
  | fatal
deriving DecidableEq, Repr

/-! ## Service errors and the error factory
(internal/components/errors/errors.go and factory.go)

A ServiceError carries the structured error value built by newServiceError
plus the logger method chosen by the factory (its severity).  Submit logs the
message at that severity, when a logger method was attached, and returns the
error value.  We record the chosen severity in the field loggerSeverity:
none models a factory built without a logger (options.Logger left nil). -/

structure ServiceError where
  code : Int
  serviceName : String
  message : String
  destination : String
  kind : Kind
  subLevelError : String
  loggerSeverity : Option Severity
deriving DecidableEq, Repr

/-- Factory.RPC (factory.go): kind KindRPC, message "service RPC error",
logger method f.logger.Warn. -/
def factoryRPC (hasLogger : Bool) (serviceName errMsg destination : String) : ServiceError :=
  { code := 0, serviceName := serviceName, message := "service RPC error",
    destination := destination, kind := Kind.rpc, subLevelError := errMsg,
    loggerSeverity := if hasLogger then some Severity.warn else none }

/-- Factory.InvalidArgument (factory.go): kind KindValidation,
message "request validation failed", logger method f.logger.Warn. -/
def factoryInvalidArgument (hasLogger : Bool) (serviceName errMsg : String) : ServiceError :=
  { code := 0, serviceName := serviceName, message := "request validation failed",
    destination := "", kind := Kind.validation, subLevelError := errMsg,
    loggerSeverity := if hasLogger then some Severity.warn else none }

/-- Factory.FailedPrecondition (factory.go): kind KindPrecondition, caller
message, logger method f.logger.Warn. -/
def factoryFailedPrecondition (hasLogger : Bool) (serviceName message : String) : ServiceError :=
  { code := 0, serviceName := serviceName, message := message,
    destination := "", kind := Kind.precondition, subLevelError := "",
    loggerSeverity := if hasLogger then some Severity.warn else none }

/-- Factory.NotFound (factory.go): kind KindNotFound, message "not found",
logger method f.logger.Warn. -/
def factoryNotFound (hasLogger : Bool) (serviceName : String) : ServiceError :=
  { code := 0, serviceName := serviceName, message := "not found",
    destination := "", kind := Kind.notFound, subLevelError := "",
    loggerSeverity := if hasLogger then some Severity.warn else none }

/-- Factory.Internal (factory.go): kind KindInternal, message
"got an internal error", logger method f.logger.Error. -/
def factoryInternal (hasLogger : Bool) (serviceName errMsg : String) : ServiceError :=
  { code := 0, serviceName := serviceName, message := "got an internal error",
    destination := "", kind := Kind.internal, subLevelError := errMsg,
    loggerSeverity := if hasLogger then some Severity.error else none }

/-- Factory.PermissionDenied (factory.go): kind KindPermission, message
"no permission to access " plus the service name, logger method f.logger.Info. -/
def factoryPermissionDenied (hasLogger : Bool) (serviceName : String) : ServiceError :=
  { code := 0, serviceName := serviceName,
    message := "no permission to access " ++ serviceName,
    destination := "", kind := Kind.permission, subLevelError := "",
    loggerSeverity := if hasLogger then some Severity.info else none }

/-- Factory.Custom (factory.go): kind KindCustom, caller message, logger
method f.logger.Info. -/
def factoryCustom (hasLogger : Bool) (serviceName message : String) : ServiceError :=
  { code := 0, serviceName := serviceName, message := message,
    destination := "", kind := Kind.custom, subLevelError := "",
    loggerSeverity := if hasLogger then some Severity.info else none }

/-- ServiceError.Submit (errors.go): when a logger method is attached the
message is logged at its severity; this returns that severity, none when no
logging happens. -/
def submitLogSeverity (e : ServiceError) : Option Severity :=
  e.loggerSeverity

/-! ## Transport registry ServiceSet (components/plugin, src/unnamed/part_014)

The Go registry is a map from name to transport instance that is only ever
written when the key is absent; it is modelled as an association list in
insertion order.  A transport instance is modelled by its name together with
an abstract identity (Nat). -/

/-- A registered transport instance: its Name() and an abstract identity. -/
structure Svc where
  name : String
  id : Nat
deriving DecidableEq, Repr

/-- The ServiceSet registry contents: name-keyed entries in insertion order. -/
abbrev ServiceSet := List (String × Nat)

/-- Go map read services[name]: first (and only) entry with that key. -/
def svcLookup : ServiceSet → String → Option Nat
  | [], _ => none
  | (k, v) :: rest, name => if k = name then some v else svcLookup rest name

/-- ServiceSet.Register: adds the service when its name is valid (non-empty)
and not yet registered, otherwise does nothing. -/
def svcRegister (s : ServiceSet) (svc : Svc) : ServiceSet :=
  if svc.name ≠ "" then
    if (svcLookup s svc.name).isNone then s ++ [(svc.name, svc.id)] else s
  else s

/-- ServiceSet.Append: adds the entries of another ServiceSet that are not
already present by name.  Go iterates the other map in unspecified order; the
fold fixes one order, and the properties proved below hold for any order. -/
def svcAppend (s other : ServiceSet) : ServiceSet :=
  other.foldl (fun acc kv => if (svcLookup acc kv.1).isNone then acc ++ [kv] else acc) s

theorem svcLookup_append_right (s : ServiceSet) (kv : String × Nat) (name : String)
    (h : svcLookup s name = none) :
    svcLookup (s ++ [kv]) name = if kv.1 = name then some kv.2 else none := by
  induction s with
  | nil => simp [svcLookup]
  | cons hd tl ih =>
    obtain ⟨k, v⟩ := hd
    by_cases hk : k = name
    · simp [svcLookup, hk] at h
    · simpa [svcLookup, hk] using ih (by simpa [svcLookup, hk] using h)

theorem svcLookup_append_left (s : ServiceSet) (kv : String × Nat) (name : String) (v : Nat)
    (h : svcLookup s name = some v) :
    svcLookup (s ++ [kv]) name = some v := by
  induction s with
  | nil => simp [svcLookup] at h
  | cons hd tl ih =>
    obtain ⟨k, w⟩ := hd
    by_cases hk : k = name
    · simp [svcLookup, hk] at h ⊢
      exact h
    · simpa [svcLookup, hk] using ih (by simpa [svcLookup, hk] using h)

/-- Registering an already-present name leaves the registry unchanged. -/
theorem svcRegister_present (s : ServiceSet) (svc : Svc)
    (h : (svcLookup s svc.name).isSome) : svcRegister s svc = s := by
  unfold svcRegister
  by_cases hn : svc.name = ""
  · simp [hn]
  · simp [hn]
    intro habs
    rw [habs] at h
    simp at h

/-- Registering with an empty name is a no-op. -/
theorem svcRegister_empty_name (s : ServiceSet) (svc : Svc)
    (h : svc.name = "") : svcRegister s svc = s := by
  unfold svcRegister
  simp [h]

/-- Appending preserves every entry already present. -/
theorem svcAppend_preserves (s other : ServiceSet) (name : String) (v : Nat)
    (h : svcLookup s name = some v) : svcLookup (svcAppend s other) name = some v := by
  unfold svcAppend
  induction other generalizing s with
  | nil => simpa using h
  | cons kv rest ih =>
    simp only [List.foldl_cons]
    by_cases hpres : (svcLookup s kv.1).isNone
    · simp only [hpres, if_pos]
      exact ih (s ++ [kv]) (svcLookup_append_left s kv name v h)
    · simp only [hpres, if_neg]
      exact ih s h

/-- Claim C2: in every registry the first registration under a non-empty name
is the one retained; a later Register with the same name leaves the registry
unchanged, Register with an empty name is a silent no-op, and Append copies
only entries whose names are not already present, never overwriting one. -/
theorem c2_registry_first_registration_wins :
    (∀ (s : ServiceSet) (a b : Svc), b.name = a.name → a.name ≠ "" →
      svcLookup s a.name = none →
      svcLookup (svcRegister (svcRegister s a) b) a.name = some a.id)
    ∧ (∀ (s : ServiceSet) (a : Svc), (svcLookup s a.name).isSome → svcRegister s a = s)
    ∧ (∀ (s : ServiceSet) (a : Svc), a.name = "" → svcRegister s a = s)
    ∧ (∀ (s other : ServiceSet) (name : String) (v : Nat),
        svcLookup s name = some v → svcLookup (svcAppend s other) name = some v) := by
  refine ⟨?_, svcRegister_present, svcRegister_empty_name, svcAppend_preserves⟩
  intro s a b hname hne habsent
  have hreg : svcRegister s a = s ++ [(a.name, a.id)] := by
    unfold svcRegister
    simp [hne, habsent]
  have hlook : svcLookup (svcRegister s a) a.name = some a.id := by
    rw [hreg, svcLookup_append_right s (a.name, a.id) a.name habsent]
    simp
  have hsecond : svcRegister (svcRegister s a) b = svcRegister s a := by
    apply svcRegister_present
    rw [hname, hlook]
    simp
  rw [hsecond, hlook]

/-- Witness for C2 at concrete registrations: two transports named "grpc"
with distinct identities, plus an Append over an overlapping registry. -/
theorem c2_registry_first_registration_wins_witness :
    svcLookup (svcRegister (svcRegister [] ⟨"grpc", 1⟩) ⟨"grpc", 2⟩) "grpc" = some 1
    ∧ svcRegister [("grpc", 1)] ⟨"grpc", 2⟩ = [("grpc", 1)]
    ∧ svcRegister [("grpc", 1)] ⟨"", 9⟩ = [("grpc", 1)]
    ∧ svcLookup (svcAppend [("grpc", 1)] [("grpc", 2), ("http", 3)]) "grpc" = some 1 := by
  refine ⟨?_, ?_, ?_, ?_⟩
  · exact c2_registry_first_registration_wins.1 [] ⟨"grpc", 1⟩ ⟨"grpc", 2⟩ rfl
      (by decide) (by decide)
  · exact c2_registry_first_registration_wins.2.1 [("grpc", 1)] ⟨"grpc", 2⟩ (by decide)
  · exact c2_registry_first_registration_wins.2.2.1 [("grpc", 1)] ⟨"", 9⟩ rfl
  · exact c2_registry_first_registration_wins.2.2.2 [("grpc", 1)] [("grpc", 2), ("http", 3)]
      "grpc" 1 (by decide)

/-! ## Struct tag parsing (internal/components/tags, in lifecycle.go source blob)

ParseTag looks up the key "mikros" in the field tag (input: the looked-up
value, none when the key is absent), splits the value on commas, splits every
entry on the equals sign and switches on the first part.  The entry
grpc_client reads parts[1], which panics (index out of range) when the entry
has no equals sign.  A panic is modelled as the outer Option being none. -/

/-- Tag metadata parsed from a field annotation (tags.Tag). -/
structure Tag where
  isFeature : Bool
  isOptional : Bool
  isDefinitions : Bool
  grpcClientName : String
deriving DecidableEq, Repr

/-- The zero Tag value, as built by ParseTag before reading the entries. -/
def Tag.zero : Tag :=
  { isFeature := false, isOptional := false, isDefinitions := false, grpcClientName := "" }

/-- Tag.IsClientTag (tags source): a gRPC client tag is one that is neither
optional nor a feature and carries a client name. -/
def Tag.isClientTag (t : Tag) : Bool :=
  !t.isOptional && !t.isFeature && t.grpcClientName ≠ ""

/-- strings.Split with a single-character separator, over the characters of a
Go string.  Like the Go function it yields one (possibly empty) group more
than the number of separators; splitting the empty string yields one empty
group. -/
def splitOnChar (sep : Char) : List Char → List (List Char)
  | [] => [[]]
  | c :: rest =>
    let r := splitOnChar sep rest
    if c = sep then [] :: r
    else
      match r with
      | [] => [[c]]
      | g :: gs => (c :: g) :: gs

/-- One iteration of the ParseTag entry loop: splits the entry on the equals
sign and switches on parts[0]; returns none on the parts[1] read of a
grpc_client entry with no equals sign, which is a Go panic. -/
def applyTagEntry (acc : Tag) (entry : List Char) : Option Tag :=
  match splitOnChar '=' entry with
  | [] => some acc
  | key :: rest =>
    if key = "skip".toList then some { acc with isOptional := true }
    else if key = "grpc_client".toList then
      match rest with
      | [] => none
      | v :: _ => some { acc with grpcClientName := String.mk v }
    else if key = "feature".toList then some { acc with isFeature := true }
    else if key = "definitions".toList then some { acc with isDefinitions := true }
    else some acc

/-- ParseTag (tags source): nil when the mikros key is absent, otherwise the
Tag accumulated over the comma-separated entries.  The outer Option is the
panic-freedom of the call: none means the Go code panics. -/
def parseTag (mikrosValue : Option (List Char)) : Option (Option Tag) :=
  match mikrosValue with
  | none => some none
  | some t => (List.foldlM applyTagEntry Tag.zero (splitOnChar ',' t)).map some

/-- An entry is well formed when it is not a grpc_client entry missing the
equals sign — the one shape on which the entry loop panics. -/
def tagEntryWellFormed (entry : List Char) : Bool :=
  match splitOnChar '=' entry with
  | [] => true
  | key :: rest => key ≠ "grpc_client".toList || !rest.isEmpty

theorem applyTagEntry_isSome_of_wellFormed (acc : Tag) (entry : List Char)
    (h : tagEntryWellFormed entry = true) : (applyTagEntry acc entry).isSome := by
  unfold tagEntryWellFormed at h
  unfold applyTagEntry
  cases hsplit : splitOnChar '=' entry with
  | nil => simp
  | cons key rest =>
    rw [hsplit] at h
    dsimp only at h ⊢
    by_cases hcli : key = "grpc_client".toList
    · subst hcli
      simp at h
      cases rest with
      | nil => simp [List.isEmpty] at h
      | cons v vs => simp
    · split_ifs <;> simp_all

theorem foldlM_applyTagEntry_isSome (entries : List (List Char)) (acc : Tag)
    (h : ∀ e ∈ entries, tagEntryWellFormed e = true) :
    (List.foldlM applyTagEntry acc entries).isSome := by
  induction entries generalizing acc with
  | nil => simp [List.foldlM]
  | cons e rest ih =>
    have he := h e (List.mem_cons_self e rest)
    have hsome := applyTagEntry_isSome_of_wellFormed acc e he
    cases happ : applyTagEntry acc e with
    | none => rw [happ] at hsome; simp at hsome
    | some acc2 =>
      simp only [List.foldlM, happ, Option.bind_some]
      exact ih acc2 (fun x hx => h x (List.mem_cons_of_mem e hx))

/-- Claim C10 counterexample: a mikros tag whose entry list contains the
token grpc_client with no equals-value part makes ParseTag panic (index out
of range on parts[1]) instead of returning a parsed Tag. -/
theorem c10_parse_tag_panics_counterexample :
    parseTag (some "grpc_client".toList) = none := by
  decide

/-- Claim C10 (amended): ParseTag returns nil exactly when the mikros key is
absent, and for every present tag value whose entries are each either not a
grpc_client token or carry an equals-value part, it returns a parsed Tag
without panicking; a grpc_client token with no equals sign panics. -/
theorem c10_parse_tag_totality (t : List Char)
    (h : ∀ e ∈ splitOnChar ',' t, tagEntryWellFormed e = true) :
    parseTag none = some none
    ∧ (∃ tag : Tag, parseTag (some t) = some (some tag)) := by
  refine ⟨rfl, ?_⟩
  have hsome := foldlM_applyTagEntry_isSome (splitOnChar ',' t) Tag.zero h
  cases hfold : List.foldlM applyTagEntry Tag.zero (splitOnChar ',' t) with
  | none => rw [hfold] at hsome; simp at hsome
  | some tag =>
    refine ⟨tag, ?_⟩
    show Option.map some (List.foldlM applyTagEntry Tag.zero (splitOnChar ',' t)) = some (some tag)
    rw [hfold]
    rfl

/-- Witness for C10 at a concrete tag value combining all recognized flags. -/
theorem c10_parse_tag_totality_witness :
    (∀ e ∈ splitOnChar ',' "feature,skip,grpc_client=users,unknown".toList,
      tagEntryWellFormed e = true)
    ∧ parseTag none = some none
    ∧ (∃ tag : Tag,
        parseTag (some "feature,skip,grpc_client=users,unknown".toList) = some (some tag)) := by
  refine ⟨by decide, ?_⟩
  exact c10_parse_tag_totality "feature,skip,grpc_client=users,unknown".toList (by decide)

/-! ## Capability registry and the DI resolver
(Service.Feature and Service.loadTaggedFeatures in the tracing.go source blob)

Go runtime values and interface types are abstracted to identities (Nat);
whether a value implements an interface is an abstract boolean relation
passed to the resolver, mirroring reflect.Type.Implements. -/

/-- A registered capability: its own value identity, and the value returned
by ServiceAPI() when the capability implements plugin.FeatureExternalAPI. -/
structure Feature where
  selfValue : Nat
  serviceAPI : Option Nat
deriving DecidableEq, Repr

/-- The value the resolver tests against the target interface: the
ServiceAPI() result is preferred when the capability implements
plugin.FeatureExternalAPI, else the capability value itself. -/
def exposedAPI (f : Feature) : Nat :=
  match f.serviceAPI with
  | some v => v
  | none => f.selfValue

/-- Modelled from the spec: the FeatureSet registry implementation is not
among the provided sources (only its contracts and callers are).  Per the
spec, it is a name-keyed collection with the same first-registration-wins
semantics as the ServiceSet, whose Iterator() yields the registered
capabilities in a stable registration order. -/
abbrev FeatureSet := List (String × Feature)

/-- Go map read of the feature registry by name. -/
def featLookup : FeatureSet → String → Option Feature
  | [], _ => none
  | (k, v) :: rest, name => if k = name then some v else featLookup rest name

/-- Modelled from the spec: FeatureSet.Register(name, feature) inserts under
the name if non-empty and not already present; silent no-op on duplicate. -/
def featRegister (fs : FeatureSet) (name : String) (f : Feature) : FeatureSet :=
  if name ≠ "" then
    if (featLookup fs name).isNone then fs ++ [(name, f)] else fs
  else fs

/-- Modelled from the spec: Iterator() yields the registered capabilities in
registration order. -/
def featIterate (fs : FeatureSet) : List Feature := fs.map Prod.snd

/-- The loop body of Service.Feature: scan the iterated capabilities and
return the exposed API of the first one implementing the target interface. -/
def featureSearch (impl : Nat → Nat → Bool) (target : Nat) : List Feature → Option Nat
  | [] => none
  | f :: rest =>
    if impl (exposedAPI f) target then some (exposedAPI f)
    else featureSearch impl target rest

/-- The structured internal error returned by Service.Feature when no
capability matches. -/
def couldNotFindFeatureError (serviceName : String) : ServiceError :=
  factoryInternal true serviceName "could not find feature that supports this requested API"

/-- Service.Feature: reject non-pointer targets with an internal error, then
scan the registry iteration order for the first capability whose exposed API
implements the target interface; structured internal error when none does. -/
def serviceFeature (impl : Nat → Nat → Bool) (serviceName : String) (targetIsPointer : Bool)
    (fs : FeatureSet) (target : Nat) : Except ServiceError Nat :=
  if targetIsPointer = false then
    Except.error (factoryInternal true serviceName "requested target API must be a pointer")
  else
    match featureSearch impl target (featIterate fs) with
    | some v => Except.ok v
    | none => Except.error (couldNotFindFeatureError serviceName)

/-- A field of the user service struct as the injector sees it through
reflection: its name, parsed mikros tag, settability, the identity of its
(interface) type, its current value and whether it is a zero value. -/
structure StructField where
  fieldName : String
  tag : Option Tag
  canSet : Bool
  ifaceType : Nat
  value : Option Nat
  isZero : Bool
deriving DecidableEq, Repr

/-- The loadTaggedFeatures guard: tag present and IsFeature set. -/
def isFeatureField (fld : StructField) : Bool :=
  match fld.tag with
  | some t => t.isFeature
  | none => false

/-- Service.loadTaggedFeatures: for every settable field carrying a feature
tag, resolve through Service.Feature and set the field (which makes it
non-zero); other fields are left untouched; the first resolver error aborts
the walk. -/
def loadTaggedFeatures (impl : Nat → Nat → Bool) (serviceName : String) (fs : FeatureSet) :
    List StructField → Except ServiceError (List StructField)
  | [] => Except.ok []
  | fld :: rest =>
    if isFeatureField fld && fld.canSet then
      match serviceFeature impl serviceName true fs fld.ifaceType with
      | Except.error e => Except.error e
      | Except.ok v =>
        match loadTaggedFeatures impl serviceName fs rest with
        | Except.error e => Except.error e
        | Except.ok rest2 => Except.ok ({ fld with value := some v, isZero := false } :: rest2)
    else
      match loadTaggedFeatures impl serviceName fs rest with
      | Except.error e => Except.error e
      | Except.ok rest2 => Except.ok (fld :: rest2)

theorem featureSearch_eq_find (impl : Nat → Nat → Bool) (target : Nat) (l : List Feature) :
    featureSearch impl target l
      = (l.find? (fun f => impl (exposedAPI f) target)).map exposedAPI := by
  induction l with
  | nil => rfl
  | cons f rest ih =>
    by_cases h : impl (exposedAPI f) target = true
    · simp [featureSearch, List.find?, h]
    · rw [Bool.not_eq_true] at h
      simp [featureSearch, List.find?, h, ih]

/-- The feature tag used in the C1 and C3 statements. -/
def featureOnlyTag : Tag :=
  { isFeature := true, isOptional := false, isDefinitions := false, grpcClientName := "" }

/-- Claim C1: the resolver scans registered capabilities in registry
iteration order and returns the exposed API (the ServiceAPI() value when
implemented, else the capability itself) of the first capability
implementing the target interface; with two capabilities registered in a
known order and both implementing the interface, both the explicit lookup
and tag injection yield the first-registered one. -/
theorem c1_feature_resolution_first_match :
    (∀ (impl : Nat → Nat → Bool) (sname : String) (fs : FeatureSet) (target : Nat),
      serviceFeature impl sname true fs target
        = match (featIterate fs).find? (fun f => impl (exposedAPI f) target) with
          | some f => Except.ok (exposedAPI f)
          | none => Except.error (couldNotFindFeatureError sname))
    ∧ (∀ (impl : Nat → Nat → Bool) (sname n1 n2 : String) (f g : Feature) (target : Nat)
        (fieldName : String),
        n1 ≠ "" →
        impl (exposedAPI f) target = true →
        serviceFeature impl sname true (featRegister (featRegister [] n1 f) n2 g) target
          = Except.ok (exposedAPI f)
        ∧ loadTaggedFeatures impl sname (featRegister (featRegister [] n1 f) n2 g)
            [⟨fieldName, some featureOnlyTag, true, target, none, true⟩]
          = Except.ok
              [⟨fieldName, some featureOnlyTag, true, target, some (exposedAPI f), false⟩]) := by
  constructor
  · intro impl sname fs target
    unfold serviceFeature
    rw [featureSearch_eq_find]
    cases (featIterate fs).find? (fun f => impl (exposedAPI f) target) <;> simp
  · intro impl sname n1 n2 f g target fieldName h1 himpl
    have hreg1 : featRegister [] n1 f = [(n1, f)] := by
      unfold featRegister
      simp [h1, featLookup]
    have hmain : serviceFeature impl sname true (featRegister (featRegister [] n1 f) n2 g) target
        = Except.ok (exposedAPI f) := by
      rw [hreg1]
      unfold featRegister
      split_ifs <;> simp [serviceFeature, featIterate, featureSearch, himpl]
    refine ⟨hmain, ?_⟩
    unfold loadTaggedFeatures
    simp only [isFeatureField, featureOnlyTag, Bool.and_self, if_true]
    rw [hmain]
    rfl

/-- Witness for C1: two capabilities registered first/second, both
implementing the target interface (here: value at least the target), with
distinct exposed APIs; the first-registered one is returned and injected. -/
theorem c1_feature_resolution_first_match_witness :
    serviceFeature (fun a t => decide (t ≤ a)) "svc" true
        (featRegister (featRegister [] "first" ⟨5, none⟩) "second" ⟨2, some 9⟩) 3
      = Except.ok 5
    ∧ loadTaggedFeatures (fun a t => decide (t ≤ a)) "svc"
        (featRegister (featRegister [] "first" ⟨5, none⟩) "second" ⟨2, some 9⟩)
        [⟨"TrackerApi", some featureOnlyTag, true, 3, none, true⟩]
      = Except.ok [⟨"TrackerApi", some featureOnlyTag, true, 3, some 5, false⟩] := by
  exact c1_feature_resolution_first_match.2 (fun a t => decide (t ≤ a)) "svc" "first" "second"
    ⟨5, none⟩ ⟨2, some 9⟩ 3 "TrackerApi" (by decide) (by decide)

/-! ## Claim C4: log severity chosen by error kind -/

/-- Claim C4 counterexample: an RPC-kind error produced by the factory is
logged at warn severity, not at error severity as the claim states. -/
theorem c4_rpc_logged_at_warn_counterexample :
    (factoryRPC true "svc" "boom" "other-svc").kind = Kind.rpc
    ∧ submitLogSeverity (factoryRPC true "svc" "boom" "other-svc") = some Severity.warn
    ∧ submitLogSeverity (factoryRPC true "svc" "boom" "other-svc") ≠ some Severity.error := by
  refine ⟨rfl, rfl, ?_⟩
  decide

/-- Claim C4 (amended): for every error produced through the error factory
with a logger attached, validation, precondition and permission kinds are
logged at warn or info severity, internal kind at error severity, and RPC
kind at warn severity. -/
theorem c4_severity_by_kind (serviceName errMsg destination message : String) :
    (submitLogSeverity (factoryInvalidArgument true serviceName errMsg) = some Severity.warn
      ∨ submitLogSeverity (factoryInvalidArgument true serviceName errMsg) = some Severity.info)
    ∧ (submitLogSeverity (factoryFailedPrecondition true serviceName message) = some Severity.warn
      ∨ submitLogSeverity (factoryFailedPrecondition true serviceName message) = some Severity.info)
    ∧ (submitLogSeverity (factoryPermissionDenied true serviceName) = some Severity.warn
      ∨ submitLogSeverity (factoryPermissionDenied true serviceName) = some Severity.info)
    ∧ submitLogSeverity (factoryInternal true serviceName errMsg) = some Severity.error
    ∧ submitLogSeverity (factoryRPC true serviceName errMsg destination) = some Severity.warn := by
  exact ⟨Or.inl rfl, Or.inl rfl, Or.inr rfl, rfl, rfl⟩

/-! ## Deployment environment, lifecycle hooks and bootstrap
(tracing.go source blob, internal/components/lifecycle,
internal/components/validations) -/

/-- definition.ServiceDeploy values (components/definition/types.go). -/
inductive ServiceDeploy
  | unknown
  | production
  | test
  | development
  | local
deriving DecidableEq, Repr

/-- A Go error value reaching the orchestrator: either a structured factory
error or a plain fmt.Errorf / errors.New message. -/
inductive GoError
  | service (e : ServiceError)
  | plain (msg : String)
deriving DecidableEq, Repr

/-- merrors.AbortError: a bootstrap stage message wrapping the cause. -/
structure AbortError where
  message : String
  inner : GoError
deriving DecidableEq, Repr

/-- lifecycle shouldExecute: lifecycle events run outside tests, and on tests
only when explicitly enabled by the service definitions. -/
def shouldExecute (env : ServiceDeploy) (executeOnTests : Bool) : Bool :=
  if env = ServiceDeploy.test then executeOnTests else true

/-- lifecycle.OnStart: runs the start hook when execution is allowed and the
service object implements the starter contract.  Returns the propagated
error and whether the hook was invoked. -/
def lifecycleOnStart (env : ServiceDeploy) (executeOnTests implementsStarter : Bool)
    (hookErr : Option GoError) : Option GoError × Bool :=
  if shouldExecute env executeOnTests then
    if implementsStarter then (hookErr, true) else (none, false)
  else (none, false)

/-- An outbound gRPC client descriptor as coupleClients consumes it: whether
Validate() succeeds and whether the connection can be established. -/
structure GrpcClient where
  validateOk : Bool
  connectOk : Bool
deriving DecidableEq, Repr

/-- Go map read of the declared clients by binding name. -/
def clientLookup : List (String × GrpcClient) → String → Option GrpcClient
  | [], _ => none
  | (k, v) :: rest, name => if k = name then some v else clientLookup rest name

/-- The coupleClients guard on a field: tag present and IsClientTag. -/
def isClientField (fld : StructField) : Bool :=
  match fld.tag with
  | some t => t.isClientTag
  | none => false

/-- The coupleClients field walk: for every client-tagged field, look the
binding name up (missing name is an error), validate the descriptor and
connect; returns the coupled binding names. -/
def coupleLoop (clients : List (String × GrpcClient)) :
    List StructField → Except GoError (List String)
  | [] => Except.ok []
  | fld :: rest =>
    if isClientField fld then
      match fld.tag with
      | none => coupleLoop clients rest
      | some t =>
        match clientLookup clients t.grpcClientName with
        | none =>
          Except.error (GoError.plain ("could not find gRPC client " ++ t.grpcClientName
            ++ " inside service options"))
        | some c =>
          if c.validateOk = false then Except.error (GoError.plain "client validation failed")
          else if c.connectOk = false then
            Except.error (GoError.plain "could not establish client connection")
          else
            match coupleLoop clients rest with
            | Except.error e => Except.error e
            | Except.ok names => Except.ok (t.grpcClientName :: names)
    else coupleLoop clients rest

/-- Service.coupleClients: skipped entirely (no coupling performed) when no
clients are declared or when running in test deployment. -/
def coupleClients (env : ServiceDeploy) (clients : List (String × GrpcClient))
    (fields : List StructField) : Except GoError (List String) :=
  if clients.isEmpty || env = ServiceDeploy.test then Except.ok []
  else coupleLoop clients fields

/-- The validations skip rule: optional members and gRPC clients are not
validated. -/
def fieldSkipsValidation (fld : StructField) : Bool :=
  match fld.tag with
  | some t => t.isOptional || t.grpcClientName ≠ ""
  | none => false

/-- validations.EnsureValuesAreInitialized over the struct fields (the
orchestrator always passes the user service struct): the first non-skipped
field at its zero value (a nil pointer is a zero value) produces the error
message; none means the struct validates. -/
def ensureValuesAreInitialized (structName : String) : List StructField → Option String
  | [] => none
  | fld :: rest =>
    if fieldSkipsValidation fld then ensureValuesAreInitialized structName rest
    else if fld.isZero then
      some ("could not initiate struct " ++ structName ++ ", value from field "
        ++ fld.fieldName ++ " is missing")
    else ensureValuesAreInitialized structName rest

/-- Inputs of initializeServiceInternals whose producing code is an external
collaborator of the embedded core: the outcome of transport Initialize calls,
the declared clients, and the user lifecycle hook. -/
structure InternalsInputs where
  initServicesErr : Option GoError
  clients : List (String × GrpcClient)
  implementsStarter : Bool
  onStartHookErr : Option GoError
  executeOnTests : Bool
deriving DecidableEq, Repr

/-- Service.initializeServiceInternals: initialize the registered transports,
couple the outbound clients, run lifecycle.OnStart, then (outside test
deployment only) validate the service struct completeness. -/
def initServiceInternals (inp : InternalsInputs) (env : ServiceDeploy)
    (structName : String) (fields : List StructField) : Except AbortError Unit :=
  match inp.initServicesErr with
  | some e => Except.error ⟨"could not initialize internal services", e⟩
  | none =>
    match coupleClients env inp.clients fields with
    | Except.error e => Except.error ⟨"could not establish connection with clients", e⟩
    | Except.ok _ =>
      match (lifecycleOnStart env inp.executeOnTests inp.implementsStarter inp.onStartHookErr).1 with
      | some e => Except.error ⟨"failed while running lifecycle.OnStart", e⟩
      | none =>
        if env ≠ ServiceDeploy.test then
          match ensureValuesAreInitialized structName fields with
          | some msg =>
            Except.error ⟨"service server object is not properly initialized", GoError.plain msg⟩
          | none => Except.ok ()
        else Except.ok ()

/-- Inputs of bootstrap whose producing code is an external collaborator:
definitions post-processing, FeatureSet.InitializeAll and StartAll outcomes,
tracker setup and logger extractor setup. -/
structure BootstrapInputs where
  postProcessErr : Option GoError
  initFeaturesAllErr : Option GoError
  startFeaturesAllErr : Option GoError
  trackerErr : Option GoError
  loggerExtractorErr : Option GoError
  internals : InternalsInputs
deriving DecidableEq, Repr

/-- Service.startFeatures stage: InitializeAll, StartAll and the tagged-field
injection, each failure wrapped as the abort "could not initialize features". -/
def startFeaturesStage (inp : BootstrapInputs) (impl : Nat → Nat → Bool) (sname : String)
    (fs : FeatureSet) (fields : List StructField) : Except AbortError (List StructField) :=
  match inp.initFeaturesAllErr with
  | some e => Except.error ⟨"could not initialize features", e⟩
  | none =>
    match inp.startFeaturesAllErr with
    | some e => Except.error ⟨"could not initialize features", e⟩
    | none =>
      match loadTaggedFeatures impl sname fs fields with
      | Except.error e => Except.error ⟨"could not initialize features", GoError.service e⟩
      | Except.ok fields2 => Except.ok fields2

/-- Service.bootstrap: the strict short-circuiting stage sequence; returns
the service struct fields after injection on success. -/
def bootstrap (inp : BootstrapInputs) (impl : Nat → Nat → Bool) (sname : String)
    (fs : FeatureSet) (env : ServiceDeploy) (structName : String)
    (fields : List StructField) : Except AbortError (List StructField) :=
  match inp.postProcessErr with
  | some e => Except.error ⟨"service definitions error", e⟩
  | none =>
    match startFeaturesStage inp impl sname fs fields with
    | Except.error e => Except.error e
    | Except.ok fields2 =>
      match inp.trackerErr with
      | some e => Except.error ⟨"could not initialize the service tracker", e⟩
      | none =>
        match inp.loggerExtractorErr with
        | some e => Except.error ⟨"could not set logger extractor", e⟩
        | none =>
          match initServiceInternals inp.internals env structName fields2 with
          | Except.error e => Except.error e
          | Except.ok _ => Except.ok fields2

/-- The observable outcome of Service.Start: fatal abort (logger.Fatal exits
the process), return right after bootstrap (test deployment), or entry into
the blocking run phase. -/
inductive StartOutcome
  | fatalAborted (e : AbortError)
  | returnedAfterBootstrap (fields : List StructField)
  | enteredRun (fields : List StructField)
deriving DecidableEq, Repr

/-- Service.Start: bootstrap, fatal abort on its error, return without
running under test deployment, otherwise run. -/
def start (inp : BootstrapInputs) (impl : Nat → Nat → Bool) (sname : String)
    (fs : FeatureSet) (env : ServiceDeploy) (structName : String)
    (fields : List StructField) : StartOutcome :=
  match bootstrap inp impl sname fs env structName fields with
  | Except.error e => StartOutcome.fatalAborted e
  | Except.ok fields2 =>
    if env = ServiceDeploy.test then StartOutcome.returnedAfterBootstrap fields2
    else StartOutcome.enteredRun fields2

theorem serviceFeature_pointer_error_eq (impl : Nat → Nat → Bool) (sname : String)
    (fs : FeatureSet) (t : Nat) (e : ServiceError)
    (h : serviceFeature impl sname true fs t = Except.error e) :
    e = couldNotFindFeatureError sname := by
  unfold serviceFeature at h
  simp only [Bool.true_eq_false, if_false] at h
  cases hfs : featureSearch impl t (featIterate fs) with
  | some v => rw [hfs] at h; simp at h
  | none =>
    rw [hfs] at h
    simp only [Except.error.injEq] at h
    exact h.symm

theorem loadTaggedFeatures_error_of_unresolvable (impl : Nat → Nat → Bool) (sname : String)
    (fs : FeatureSet) (fields : List StructField)
    (h : ∃ fld ∈ fields, isFeatureField fld = true ∧ fld.canSet = true
      ∧ featureSearch impl fld.ifaceType (featIterate fs) = none) :
    loadTaggedFeatures impl sname fs fields = Except.error (couldNotFindFeatureError sname) := by
  induction fields with
  | nil =>
    obtain ⟨fld, hmem, _⟩ := h
    simp at hmem
  | cons fld rest ih =>
    obtain ⟨w, hmem, hw1, hw2, hw3⟩ := h
    rcases List.mem_cons.1 hmem with hw | hw
    · subst hw
      unfold loadTaggedFeatures
      simp only [hw1, hw2, Bool.and_self, if_true]
      unfold serviceFeature
      simp only [Bool.true_eq_false, if_false]
      rw [hw3]
    · have hrec := ih ⟨w, hw, hw1, hw2, hw3⟩
      unfold loadTaggedFeatures
      by_cases hguard : (isFeatureField fld && fld.canSet) = true
      · simp only [hguard, if_true]
        cases hsf : serviceFeature impl sname true fs fld.ifaceType with
        | error e => rw [serviceFeature_pointer_error_eq impl sname fs fld.ifaceType e hsf]
        | ok v => rw [hrec]
      · rw [hrec]
        simp only [hguard, if_false]
        rfl

/-- Claim C3 counterexample: a service struct whose only field carries the
feature tag but is not settable (an unexported field), with an interface no
capability implements, does not fail bootstrap: the injector skips the field
and outside test deployment the run phase is entered. -/
theorem c3_unsettable_tagged_field_counterexample :
    start ⟨none, none, none, none, none, ⟨none, [], false, none, false⟩⟩
      (fun _ _ => false) "svc" [] ServiceDeploy.production "service"
      [⟨"tracker", some featureOnlyTag, false, 0, none, false⟩]
    = StartOutcome.enteredRun [⟨"tracker", some featureOnlyTag, false, 0, none, false⟩] := by
  rfl

/-- Claim C3 (amended): for every service struct containing a settable field
tagged as capability-injectable whose interface type is implemented by no
registered capability exposed API, bootstrap fails with the structured
internal could-not-find-feature error wrapped in the feature-stage abort,
Start fatal-aborts, and the run phase is never entered; a tagged field that
is not settable is skipped by the injector. -/
theorem c3_unresolvable_injection_aborts (inp : BootstrapInputs) (impl : Nat → Nat → Bool)
    (sname : String) (fs : FeatureSet) (env : ServiceDeploy) (structName : String)
    (fields : List StructField)
    (hpost : inp.postProcessErr = none)
    (hinit : inp.initFeaturesAllErr = none)
    (hstart : inp.startFeaturesAllErr = none)
    (hfld : ∃ fld ∈ fields, isFeatureField fld = true ∧ fld.canSet = true
      ∧ featureSearch impl fld.ifaceType (featIterate fs) = none) :
    bootstrap inp impl sname fs env structName fields
      = Except.error ⟨"could not initialize features",
          GoError.service (couldNotFindFeatureError sname)⟩
    ∧ start inp impl sname fs env structName fields
      = StartOutcome.fatalAborted ⟨"could not initialize features",
          GoError.service (couldNotFindFeatureError sname)⟩
    ∧ ∀ flds, start inp impl sname fs env structName fields ≠ StartOutcome.enteredRun flds := by
  have hload := loadTaggedFeatures_error_of_unresolvable impl sname fs fields hfld
  have hboot : bootstrap inp impl sname fs env structName fields
      = Except.error ⟨"could not initialize features",
          GoError.service (couldNotFindFeatureError sname)⟩ := by
    unfold bootstrap startFeaturesStage
    rw [hpost, hinit, hstart, hload]
  have hrun : start inp impl sname fs env structName fields
      = StartOutcome.fatalAborted ⟨"could not initialize features",
          GoError.service (couldNotFindFeatureError sname)⟩ := by
    unfold start
    rw [hboot]
  refine ⟨hboot, hrun, ?_⟩
  intro flds
  rw [hrun]
  exact fun hcontra => StartOutcome.noConfusion hcontra

/-- Witness for C3: one settable feature-tagged field against an empty
capability registry aborts bootstrap before any run. -/
theorem c3_unresolvable_injection_aborts_witness :
    bootstrap ⟨none, none, none, none, none, ⟨none, [], false, none, false⟩⟩
      (fun _ _ => false) "svc" [] ServiceDeploy.production "service"
      [⟨"tracker", some featureOnlyTag, true, 0, none, true⟩]
    = Except.error ⟨"could not initialize features",
        GoError.service (couldNotFindFeatureError "svc")⟩ := by
  exact (c3_unresolvable_injection_aborts
    ⟨none, none, none, none, none, ⟨none, [], false, none, false⟩⟩
    (fun _ _ => false) "svc" [] ServiceDeploy.production "service"
    [⟨"tracker", some featureOnlyTag, true, 0, none, true⟩]
    rfl rfl rfl ⟨⟨"tracker", some featureOnlyTag, true, 0, none, true⟩,
      List.mem_singleton.2 rfl, rfl, rfl, rfl⟩).1

theorem ensureValues_some_of_zero_field (structName : String) (fields : List StructField)
    (h : ∃ fld ∈ fields, fieldSkipsValidation fld = false ∧ fld.isZero = true) :
    ∃ msg, ensureValuesAreInitialized structName fields = some msg := by
  induction fields with
  | nil =>
    obtain ⟨fld, hmem, _⟩ := h
    simp at hmem
  | cons fld rest ih =>
    obtain ⟨w, hmem, hw1, hw2⟩ := h
    rcases List.mem_cons.1 hmem with hw | hw
    · subst hw
      unfold ensureValuesAreInitialized
      simp only [hw1, if_false, hw2, if_true]
      exact ⟨_, rfl⟩
    · obtain ⟨msg, hmsg⟩ := ih ⟨w, hw, hw1, hw2⟩
      unfold ensureValuesAreInitialized
      by_cases hskip : fieldSkipsValidation fld = true
      · simp only [hskip, if_true]
        exact ⟨msg, hmsg⟩
      · simp only [Bool.not_eq_true] at hskip
        simp only [hskip, if_false]
        by_cases hz : fld.isZero = true
        · simp only [hz, if_true]
          exact ⟨_, rfl⟩
        · simp only [Bool.not_eq_true] at hz
          simp only [hz, if_false]
          exact ⟨msg, hmsg⟩

theorem lifecycleOnStart_fst_none (env : ServiceDeploy) (eot is : Bool) :
    (lifecycleOnStart env eot is none).1 = none := by
  unfold lifecycleOnStart
  split_ifs <;> rfl

/-- Claim C5: outside test deployment, bootstrap stage eight fails whenever
some field of the user service struct that is neither tagged optional nor
tagged as a gRPC client is at its zero value; under test deployment the same
struct passes, because the completeness validation is not executed. -/
theorem c5_completeness_validation (inp : InternalsInputs) (env : ServiceDeploy)
    (structName : String) (fields : List StructField)
    (hinit : inp.initServicesErr = none)
    (hhook : inp.onStartHookErr = none)
    (hclients : inp.clients = [])
    (hzero : ∃ fld ∈ fields, fieldSkipsValidation fld = false ∧ fld.isZero = true) :
    (env ≠ ServiceDeploy.test →
      ∃ msg, initServiceInternals inp env structName fields
        = Except.error ⟨"service server object is not properly initialized", GoError.plain msg⟩)
    ∧ initServiceInternals inp ServiceDeploy.test structName fields = Except.ok () := by
  have hcouple : ∀ e, coupleClients e inp.clients fields = Except.ok [] := by
    intro e
    rw [hclients]
    unfold coupleClients
    simp [List.isEmpty]
  constructor
  · intro henv
    obtain ⟨msg, hmsg⟩ := ensureValues_some_of_zero_field structName fields hzero
    refine ⟨msg, ?_⟩
    unfold initServiceInternals
    rw [hinit, hcouple env, hhook, lifecycleOnStart_fst_none]
    simp only [ne_eq, henv, not_false_iff, if_true]
    rw [hmsg]
  · unfold initServiceInternals
    rw [hinit, hcouple ServiceDeploy.test, hhook, lifecycleOnStart_fst_none]
    simp

/-- Witness for C5: a struct with one untagged zero-valued field fails the
stage in production deployment and passes it under test deployment. -/
theorem c5_completeness_validation_witness :
    (∃ msg, initServiceInternals ⟨none, [], false, none, false⟩ ServiceDeploy.production
        "pingService" [⟨"Host", none, true, 0, none, true⟩]
      = Except.error ⟨"service server object is not properly initialized", GoError.plain msg⟩)
    ∧ initServiceInternals ⟨none, [], false, none, false⟩ ServiceDeploy.test
        "pingService" [⟨"Host", none, true, 0, none, true⟩] = Except.ok () := by
  have h := c5_completeness_validation ⟨none, [], false, none, false⟩ ServiceDeploy.production
    "pingService" [⟨"Host", none, true, 0, none, true⟩] rfl rfl rfl
    ⟨⟨"Host", none, true, 0, none, true⟩, List.mem_singleton.2 rfl, rfl, rfl⟩
  exact ⟨h.1 (by decide), h.2⟩

/-- Claim C8: under test deployment, Start returns right after bootstrap and
the blocking run phase is never entered, outbound client coupling is skipped
entirely, and the lifecycle start hook is not invoked unless lifecycle
execution on tests is explicitly enabled. -/
theorem c8_test_deployment_skips_run (inp : BootstrapInputs) (impl : Nat → Nat → Bool)
    (sname : String) (fs : FeatureSet) (structName : String) (fields : List StructField)
    (clients : List (String × GrpcClient)) (hookErr : Option GoError)
    (implementsStarter : Bool) :
    (∀ fields2,
      bootstrap inp impl sname fs ServiceDeploy.test structName fields = Except.ok fields2 →
      start inp impl sname fs ServiceDeploy.test structName fields
        = StartOutcome.returnedAfterBootstrap fields2)
    ∧ (∀ flds, start inp impl sname fs ServiceDeploy.test structName fields
        ≠ StartOutcome.enteredRun flds)
    ∧ coupleClients ServiceDeploy.test clients fields = Except.ok []
    ∧ lifecycleOnStart ServiceDeploy.test false implementsStarter hookErr = (none, false)
    ∧ lifecycleOnStart ServiceDeploy.test true true hookErr = (hookErr, true) := by
  refine ⟨?_, ?_, ?_, ?_, ?_⟩
  · intro fields2 hboot
    unfold start
    rw [hboot]
    rfl
  · intro flds
    unfold start
    cases bootstrap inp impl sname fs ServiceDeploy.test structName fields with
    | error e => exact fun hcontra => StartOutcome.noConfusion hcontra
    | ok fields2 =>
      simp only [if_pos rfl]
      exact fun hcontra => StartOutcome.noConfusion hcontra
  · unfold coupleClients
    simp
  · unfold lifecycleOnStart shouldExecute
    simp
  · unfold lifecycleOnStart shouldExecute
    simp

/-- Witness for C8: a trivially wired service under test deployment. -/
theorem c8_test_deployment_skips_run_witness :
    start ⟨none, none, none, none, none, ⟨none, [], false, none, false⟩⟩
      (fun _ _ => false) "svc" [] ServiceDeploy.test "service" []
      = StartOutcome.returnedAfterBootstrap [] := by
  exact (c8_test_deployment_skips_run
    ⟨none, none, none, none, none, ⟨none, [], false, none, false⟩⟩
    (fun _ _ => false) "svc" [] "service" [] [] none false).1 [] rfl

/-! ## Transport port resolution
(Service.getServicePort and Service.initializeRegisteredServices in the
tracing.go source blob; env accessors GrpcPort and HTTPPort in
internal/components/env/service.go) -/

/-- Service.getServicePort: the configured port when non-zero, otherwise the
framework default for the gRPC and HTTP-like kinds from the environment
accessor, otherwise the (zero) port itself. -/
def getServicePort (port : Int) (serviceType : String) (grpcPortEnv httpPortEnv : Int) : Int :=
  if port = 0 then
    if serviceType = "grpc" then grpcPortEnv
    else if serviceType = "http-spec" || serviceType = "http" then httpPortEnv
    else port
  else port

/-- The port wiring of Service.initializeRegisteredServices: for every
declared (kind, configured port) pair, a missing registry entry or missing
options abort; otherwise the transport Initialize call receives the resolved
port.  Returns the (kind, initialized port) pairs in declaration order. -/
def initRegisteredServicePorts (registered optioned : List String)
    (grpcPortEnv httpPortEnv : Int) :
    List (String × Int) → Except GoError (List (String × Int))
  | [] => Except.ok []
  | (t, p) :: rest =>
    if registered.contains t = false then
      Except.error (GoError.plain ("could not find service implementation for " ++ t))
    else if optioned.contains t = false then
      Except.error (GoError.plain ("could not find service type " ++ t
        ++ " options in initialization"))
    else
      match initRegisteredServicePorts registered optioned grpcPortEnv httpPortEnv rest with
      | Except.error e => Except.error e
      | Except.ok l => Except.ok ((t, getServicePort p t grpcPortEnv httpPortEnv) :: l)

/-- Claim C7: for every declared transport kind the port passed to its
Initialize call is the explicitly configured one when non-zero, else the
framework-default gRPC port for the grpc kind, else the framework-default
HTTP port for the http and http-spec kinds, and zero for every other kind. -/
theorem c7_port_resolution (p grpcPortEnv httpPortEnv : Int) (t : String)
    (declared : List (String × Int)) (registered optioned : List String)
    (hp : p ≠ 0)
    (ht : t ≠ "grpc" ∧ t ≠ "http" ∧ t ≠ "http-spec")
    (hdecl : ∀ d ∈ declared, registered.contains d.1 = true ∧ optioned.contains d.1 = true) :
    getServicePort p t grpcPortEnv httpPortEnv = p
    ∧ getServicePort p "grpc" grpcPortEnv httpPortEnv = p
    ∧ getServicePort 0 "grpc" grpcPortEnv httpPortEnv = grpcPortEnv
    ∧ getServicePort 0 "http" grpcPortEnv httpPortEnv = httpPortEnv
    ∧ getServicePort 0 "http-spec" grpcPortEnv httpPortEnv = httpPortEnv
    ∧ getServicePort 0 t grpcPortEnv httpPortEnv = 0
    ∧ initRegisteredServicePorts registered optioned grpcPortEnv httpPortEnv declared
      = Except.ok (declared.map
          (fun d => (d.1, getServicePort d.2 d.1 grpcPortEnv httpPortEnv))) := by
  obtain ⟨ht1, ht2, ht3⟩ := ht
  refine ⟨?_, ?_, ?_, ?_, ?_, ?_, ?_⟩
  · simp [getServicePort, hp]
  · simp [getServicePort, hp]
  · simp [getServicePort]
  · simp [getServicePort]
  · simp [getServicePort]
  · simp [getServicePort, ht1, ht2, ht3]
  · induction declared with
    | nil => rfl
    | cons d rest ih =>
      obtain ⟨hreg, hopt⟩ := hdecl d (List.mem_cons_self d rest)
      have hrest := ih (fun x hx => hdecl x (List.mem_cons_of_mem d hx))
      obtain ⟨dt, dp⟩ := d
      unfold initRegisteredServicePorts
      simp only at hreg hopt
      rw [hreg, hopt]
      simp only [Bool.true_eq_false, if_false]
      rw [hrest]
      rfl

/-- Witness for C7: an http service declared without a port override receives
the framework-default HTTP port, a grpc one the default gRPC port, a worker
receives zero, and an explicit override survives for every kind. -/
theorem c7_port_resolution_witness :
    getServicePort 8484 "worker" 7070 8080 = 8484
    ∧ getServicePort 8484 "grpc" 7070 8080 = 8484
    ∧ getServicePort 0 "grpc" 7070 8080 = 7070
    ∧ getServicePort 0 "http" 7070 8080 = 8080
    ∧ getServicePort 0 "http-spec" 7070 8080 = 8080
    ∧ getServicePort 0 "worker" 7070 8080 = 0
    ∧ initRegisteredServicePorts ["grpc", "http", "worker"] ["grpc", "http", "worker"]
        7070 8080 [("http", 0), ("grpc", 0), ("worker", 0)]
      = Except.ok [("http", 8080), ("grpc", 7070), ("worker", 0)] := by
  have h := c7_port_resolution 8484 7070 8080 "worker"
    [("http", 0), ("grpc", 0), ("worker", 0)] ["grpc", "http", "worker"]
    ["grpc", "http", "worker"] (by decide) (by decide) (by decide)
  exact ⟨h.1, h.2.1, h.2.2.1, h.2.2.2.1, h.2.2.2.2.1, h.2.2.2.2.2.1, h.2.2.2.2.2.2⟩

/-! ## Run phase and shutdown (Service.run, Service.stopService,
Service.stopDependentServices, lifecycle.OnFinish)

The observable behavior is a trace of events.  Service.run registers two Go
deferred calls (stopService first, then lifecycle.OnFinish, so OnFinish runs
first on return); Service.fatalAbort calls logger.Fatal, which terminates
the process through os.Exit, so deferred calls do not run after it. -/

/-- An observable event of the run and shutdown phases. -/
inductive Event
  | logInfo (msg : String)
  | logError (msg : String)
  | onFinishHook
  | featureCleanup (name : String)
  | transportStop (idx : Nat)
  | fatalLog (msg : String)
deriving DecidableEq, Repr

/-- Modelled from the spec: FeatureSet.CleanupAll is not among the provided
sources (only its caller stopDependentServices is).  Per the spec, cleanup of
capabilities is best-effort: every capability implementing the controller
extension receives its cleanup call even when an earlier one fails, and a
combined error is reported to the caller.  Each capability carries its
cleanup outcome. -/
def cleanupAllEvents (feats : List (String × Option String)) : List Event :=
  feats.map (fun f => Event.featureCleanup f.1)

/-- Modelled from the spec: the combined error reported by CleanupAll when
at least one capability cleanup failed. -/
def cleanupAllErr (feats : List (String × Option String)) : Option String :=
  if feats.any (fun f => f.2.isSome) then some "feature cleanup failed" else none

/-- The Stop loop of Service.stopService over the active transports (each
carrying its Stop outcome): every transport receives Stop, and an individual
failure is logged and does not interrupt the loop. -/
def stopTransportEvents (idx : Nat) : List (Option String) → List Event
  | [] => []
  | stopErr :: rest =>
    Event.transportStop idx ::
      ((match stopErr with
        | some _ => [Event.logError "could not stop service server"]
        | none => [])
       ++ stopTransportEvents (idx + 1) rest)

/-- Service.stopService: log "stopping service", stop the dependent services
(log plus CleanupAll, logging its combined error), stop every active
transport logging individual failures, and log "service stopped". -/
def stopServiceEvents (feats : List (String × Option String))
    (servers : List (Option String)) : List Event :=
  [Event.logInfo "stopping service"]
  ++ [Event.logInfo "stopping dependent services"] ++ cleanupAllEvents feats
  ++ (match cleanupAllErr feats with
      | some _ => [Event.logError "could not stop other running services"]
      | none => [])
  ++ stopTransportEvents 0 servers
  ++ [Event.logInfo "service stopped"]

/-- lifecycle.OnFinish events: the hook runs when lifecycle execution is
allowed and the service object implements the finisher contract. -/
def onFinishEvents (env : ServiceDeploy) (executeOnTests implementsFinisher : Bool) :
    List Event :=
  if shouldExecute env executeOnTests && implementsFinisher then [Event.onFinishHook] else []

/-- How the run phase ends: the script transport returns (with its error, if
any), or for long-running transports the first arrival on the select is a
transport run error or a termination signal. -/
inductive RunScenario
  | script (runErr : Option String)
  | longRunning (firstIsSignal : Bool) (errMsg : String)
deriving DecidableEq, Repr

/-- The deferred calls of Service.run, in execution order: lifecycle.OnFinish
(registered last) runs before stopService. -/
def deferredEvents (env : ServiceDeploy) (executeOnTests implementsFinisher : Bool)
    (feats : List (String × Option String)) (servers : List (Option String)) : List Event :=
  onFinishEvents env executeOnTests implementsFinisher ++ stopServiceEvents feats servers

/-- Service.run: for a script kind, run the single transport synchronously,
fatal-aborting on its error; otherwise spawn every transport and block on the
first transport error (fatal abort) or termination signal (normal return).
logger.Fatal exits the process, so the deferred events are only emitted on a
normal return. -/
def runEvents (sc : RunScenario) (env : ServiceDeploy)
    (executeOnTests implementsFinisher : Bool) (feats : List (String × Option String))
    (servers : List (Option String)) : List Event :=
  match sc with
  | RunScenario.script none =>
    [Event.logInfo "service is running"]
      ++ deferredEvents env executeOnTests implementsFinisher feats servers
  | RunScenario.script (some _) =>
    [Event.logInfo "service is running", Event.fatalLog "could not execute service"]
  | RunScenario.longRunning false _ =>
    (servers.map fun _ => Event.logInfo "service is running")
      ++ [Event.fatalLog "could not execute service"]
  | RunScenario.longRunning true _ =>
    (servers.map fun _ => Event.logInfo "service is running")
      ++ deferredEvents env executeOnTests implementsFinisher feats servers

/-- Claim C6 counterexample: when the run phase ends through a transport run
error, fatalAbort terminates the process through os.Exit before the Go
deferred calls run, so the shutdown sequence does not execute: no finish
hook, no capability cleanup, no transport Stop, no stopped log line. -/
theorem c6_shutdown_skipped_on_fatal_counterexample :
    runEvents (RunScenario.longRunning false "connection refused") ServiceDeploy.production
        false true [("tracing", none)] [none]
      = [Event.logInfo "service is running", Event.fatalLog "could not execute service"]
    ∧ Event.onFinishHook
        ∉ runEvents (RunScenario.longRunning false "connection refused")
            ServiceDeploy.production false true [("tracing", none)] [none]
    ∧ Event.transportStop 0
        ∉ runEvents (RunScenario.longRunning false "connection refused")
            ServiceDeploy.production false true [("tracing", none)] [none]
    ∧ Event.logInfo "service stopped"
        ∉ runEvents (RunScenario.longRunning false "connection refused")
            ServiceDeploy.production false true [("tracing", none)] [none] := by
  refine ⟨rfl, ?_, ?_, ?_⟩ <;> decide

theorem stopTransportEvents_mem (servers : List (Option String)) (idx i : Nat)
    (h : i < servers.length) :
    Event.transportStop (idx + i) ∈ stopTransportEvents idx servers := by
  induction servers generalizing idx i with
  | nil => simp at h
  | cons stopErr rest ih =>
    cases i with
    | zero =>
      simp [stopTransportEvents]
    | succ j =>
      have hj : j < rest.length := Nat.lt_of_succ_lt_succ h
      have hmem := ih (idx + 1) j hj
      have harith : idx + 1 + j = idx + (j + 1) := by omega
      rw [harith] at hmem
      unfold stopTransportEvents
      simp only [List.mem_cons, List.mem_append]
      exact Or.inr (Or.inr hmem)

theorem stopTransportEvents_err_logged (servers : List (Option String)) (idx : Nat)
    (msg : String) (h : some msg ∈ servers) :
    Event.logError "could not stop service server" ∈ stopTransportEvents idx servers := by
  induction servers generalizing idx with
  | nil => simp at h
  | cons stopErr rest ih =>
    rcases List.mem_cons.1 h with hhd | htl
    · subst hhd
      simp [stopTransportEvents]
    · unfold stopTransportEvents
      simp only [List.mem_cons, List.mem_append]
      exact Or.inr (Or.inr (ih (idx + 1) htl))

/-- Claim C6 (amended): when the run phase ends normally — a termination
signal for long-running transports, or the script transport returning
without error — the shutdown sequence executes: the finish hook (when it
runs at all) precedes the whole stopService trace, whose first log line is
"stopping service"; every capability receives its cleanup call and every
active transport receives Stop regardless of cleanup errors or of other
transports' Stop errors, each Stop error is logged, and the trace ends with
the "service stopped" log line.  When the run phase ends through a transport
run error, fatalAbort exits the process and none of this runs. -/
theorem c6_shutdown_sequence_on_normal_end (sc : RunScenario) (env : ServiceDeploy)
    (executeOnTests implementsFinisher : Bool) (feats : List (String × Option String))
    (servers : List (Option String))
    (hend : sc = RunScenario.script none ∨ ∃ m, sc = RunScenario.longRunning true m) :
    ∃ pre,
      runEvents sc env executeOnTests implementsFinisher feats servers
        = pre ++ onFinishEvents env executeOnTests implementsFinisher
            ++ stopServiceEvents feats servers
      ∧ Event.onFinishHook ∉ pre
      ∧ (stopServiceEvents feats servers).head? = some (Event.logInfo "stopping service")
      ∧ (stopServiceEvents feats servers).getLast? = some (Event.logInfo "service stopped")
      ∧ (∀ f ∈ feats, Event.featureCleanup f.1 ∈ stopServiceEvents feats servers)
      ∧ (∀ i, i < servers.length →
          Event.transportStop i ∈ stopServiceEvents feats servers)
      ∧ (∀ msg, some msg ∈ servers →
          Event.logError "could not stop service server" ∈ stopServiceEvents feats servers) := by
  have hstop : ∀ (P : Event → Prop), (∀ e ∈ stopTransportEvents 0 servers, P e) →
      True := fun _ _ => trivial
  have hhead : (stopServiceEvents feats servers).head? = some (Event.logInfo "stopping service") := rfl
  have hlast : (stopServiceEvents feats servers).getLast?
      = some (Event.logInfo "service stopped") := by
    unfold stopServiceEvents
    exact List.getLast?_concat _
  have hclean : ∀ f ∈ feats, Event.featureCleanup f.1 ∈ stopServiceEvents feats servers := by
    intro f hf
    have h1 : Event.featureCleanup f.1 ∈ cleanupAllEvents feats := List.mem_map.2 ⟨f, hf, rfl⟩
    unfold stopServiceEvents
    exact List.mem_append_left _ (List.mem_append_left _ (List.mem_append_left _
      (List.mem_append_right _ h1)))
  have htrans : ∀ i, i < servers.length →
      Event.transportStop i ∈ stopServiceEvents feats servers := by
    intro i hi
    have h1 := stopTransportEvents_mem servers 0 i hi
    rw [Nat.zero_add] at h1
    unfold stopServiceEvents
    exact List.mem_append_left _ (List.mem_append_right _ h1)
  have herr : ∀ msg, some msg ∈ servers →
      Event.logError "could not stop service server" ∈ stopServiceEvents feats servers := by
    intro msg hmsg
    have h1 := stopTransportEvents_err_logged servers 0 msg hmsg
    unfold stopServiceEvents
    exact List.mem_append_left _ (List.mem_append_right _ h1)
  rcases hend with hsc | ⟨m, hsc⟩
  · subst hsc
    refine ⟨[Event.logInfo "service is running"], ?_, ?_, hhead, hlast, hclean, htrans, herr⟩
    · rfl
    · simp
  · subst hsc
    refine ⟨servers.map fun _ => Event.logInfo "service is running", ?_, ?_, hhead, hlast,
      hclean, htrans, herr⟩
    · simp [runEvents, deferredEvents]
    · intro hcontra
      obtain ⟨x, _, hx⟩ := List.mem_map.1 hcontra
      exact Event.noConfusion hx

/-- Witness for C6 at a concrete shutdown: a failing capability cleanup and a
failing first transport Stop block neither the second transport's Stop nor
the final stopped log line. -/
theorem c6_shutdown_sequence_on_normal_end_witness :
    ∃ pre,
      runEvents (RunScenario.longRunning true "sigterm") ServiceDeploy.production false true
          [("tracing", some "flush failed"), ("metrics", none)] [some "close failed", none]
        = pre ++ onFinishEvents ServiceDeploy.production false true
            ++ stopServiceEvents [("tracing", some "flush failed"), ("metrics", none)]
                [some "close failed", none]
      ∧ Event.onFinishHook ∉ pre
      ∧ (stopServiceEvents [("tracing", some "flush failed"), ("metrics", none)]
          [some "close failed", none]).head? = some (Event.logInfo "stopping service")
      ∧ (stopServiceEvents [("tracing", some "flush failed"), ("metrics", none)]
          [some "close failed", none]).getLast? = some (Event.logInfo "service stopped")
      ∧ (∀ f ∈ [("tracing", some "flush failed"), ("metrics", none)],
          Event.featureCleanup f.1
            ∈ stopServiceEvents [("tracing", some "flush failed"), ("metrics", none)]
                [some "close failed", none])
      ∧ (∀ i, i < [some "close failed", none].length →
          Event.transportStop i
            ∈ stopServiceEvents [("tracing", some "flush failed"), ("metrics", none)]
                [some "close failed", none])
      ∧ (∀ msg, some msg ∈ [some "close failed", (none : Option String)] →
          Event.logError "could not stop service server"
            ∈ stopServiceEvents [("tracing", some "flush failed"), ("metrics", none)]
                [some "close failed", none]) := by
  exact c6_shutdown_sequence_on_normal_end (RunScenario.longRunning true "sigterm")
    ServiceDeploy.production false true
    [("tracing", some "flush failed"), ("metrics", none)] [some "close failed", none]
    (Or.inr ⟨"sigterm", rfl⟩)

/-! ## Concurrent run of long-running transports (Service.run, long-running
branch)

The goroutine launch loop iterates s.servers once and spawns one task per
active transport, each invoking that transport's Run once.  The blocking
select over the error channel and the signal channel returns at the first
channel arrival; later arrivals, including the other transports finishing,
play no part in the result.  Arrivals are modelled as the time-ordered stream
of channel events. -/

/-- The Run invocations spawned by the launch loop: one per element of
s.servers, in slice order (servers are abstracted to identities). -/
def spawnedRuns (servers : List Nat) : List Nat := servers

/-- An arrival on one of the two channels of the blocking select: a transport
run error funneled onto the error channel, or a termination signal. -/
inductive SelectArrival
  | errArrival (msg : String)
  | sigArrival
deriving DecidableEq, Repr

/-- The outcome of the blocking select. -/
inductive RunPhaseResult
  | fatalAbortedRun (msg : String)
  | gracefulShutdown
deriving DecidableEq, Repr

/-- The blocking select of Service.run: the first arrival decides — a
transport error is a fatal abort, a termination signal a graceful shutdown;
none models blocking forever when no arrival ever happens. -/
def selectFirst : List SelectArrival → Option RunPhaseResult
  | [] => none
  | SelectArrival.errArrival m :: _ => some (RunPhaseResult.fatalAbortedRun m)
  | SelectArrival.sigArrival :: _ => some RunPhaseResult.gracefulShutdown

/-- Claim C9: with two long-running transports declared, each transport's Run
is invoked exactly once, and the blocking run call returns at the first of a
transport run error or a termination signal, whichever arrives first,
independently of every later arrival — in particular without waiting for the
other transport to finish. -/
theorem c9_concurrent_run_first_arrival (a b : Nat) (e : SelectArrival)
    (rest : List SelectArrival) (errMsg : String) (h : a ≠ b) :
    (spawnedRuns [a, b]).count a = 1
    ∧ (spawnedRuns [a, b]).count b = 1
    ∧ selectFirst (e :: rest) = selectFirst [e]
    ∧ selectFirst (SelectArrival.errArrival errMsg :: rest)
      = some (RunPhaseResult.fatalAbortedRun errMsg)
    ∧ selectFirst (SelectArrival.sigArrival :: rest)
      = some RunPhaseResult.gracefulShutdown := by
  refine ⟨?_, ?_, ?_, rfl, rfl⟩
  · simp [spawnedRuns, List.count_cons, h]
  · simp [spawnedRuns, List.count_cons, Ne.symm h]
  · cases e <;> rfl

/-- Witness for C9: two concrete transports; the error of the second arrives
first while the first transport never finishes (no arrival from it). -/
theorem c9_concurrent_run_first_arrival_witness :
    (spawnedRuns [7, 9]).count 7 = 1
    ∧ (spawnedRuns [7, 9]).count 9 = 1
    ∧ selectFirst [SelectArrival.errArrival "grpc server crashed"]
      = selectFirst [SelectArrival.errArrival "grpc server crashed"]
    ∧ selectFirst [SelectArrival.errArrival "grpc server crashed"]
      = some (RunPhaseResult.fatalAbortedRun "grpc server crashed")
    ∧ selectFirst [SelectArrival.sigArrival]
      = some RunPhaseResult.gracefulShutdown := by
  exact c9_concurrent_run_first_arrival 7 9 (SelectArrival.errArrival "grpc server crashed")
    [] "grpc server crashed" (by decide)

end Mikros
